import Mathlib

/-!
Shallow embedding of `src/hetzner.py`, a command-line client for the
Hetzner Cloud API (create / delete / list servers, SSH-key lookup).

HTTP is modelled by passing the response (status code plus body) as an
explicit argument; console output is modelled as lists of printed lines;
`sys.exit(n)` and `parser.error` are modelled as `Except`-style error
results carrying the exit code.
-/

namespace Hetzner

/-! ## Default configuration constants (hetzner.py lines 17-21) -/

def DEFAULT_NAME : String := "isaac"

def DEFAULT_SERVER_TYPE : String := "cax41"

def DEFAULT_IMAGE : String := "ubuntu-24.04"

def DEFAULT_LOCATION : String := "nbg1"

def DEFAULT_SSH_KEY : String := "hosted-fornet@protonmail.com"

/-! ## Data model

JSON records are embedded as structures; a field reached through a chain
of `dict.get(..., default)` calls is an `Option` that is `none` when any
link of the chain is missing. -/

/-- An SSH key as returned by the `/ssh_keys` endpoint: the code reads
`key['name']` and `key['id']`. -/
structure SshKey where
  id : Nat
  name : String
deriving DecidableEq, Repr

/-- A server entry as read by `delete_server`: the code accesses
`server['name']` and `server['id']` directly. -/
structure Server where
  id : Nat
  name : String
deriving DecidableEq, Repr

/-- A server entry as read by `list_servers`, where every field is
accessed with a defaulting `get` chain and may therefore be absent. -/
structure ServerRow where
  id : Option Nat
  name : Option String
  status : Option String
  serverTypeName : Option String
  ipv4 : Option String
  locationName : Option String
deriving DecidableEq, Repr

/-- Python truthiness of an optional string (`None` and `""` are falsy). -/
def pyTruthyStr (o : Option String) : Bool :=
  match o with
  | none => false
  | some s => !s.isEmpty

/-- Python `str.isdigit()` for ASCII strings: non-empty and every
character a decimal digit. -/
def strIsDigit (s : String) : Bool :=
  !s.data.isEmpty && s.data.all Char.isDigit

/-- Python `str.lower()` for ASCII strings. -/
def strLower (s : String) : String :=
  String.mk (s.data.map Char.toLower)

/-! ## API client: response checking (`HetznerCloudManager._check_response`) -/

/-- The body of an HTTP response: either JSON that parsed, carrying the
`error.message` field when the chain `error_data['error']['message']`
exists (`jsonBody none` models JSON without such a field), or text that
fails to parse as JSON. -/
inductive ResponseBody where
  | jsonBody (errorMessage : Option String)
  | textBody (text : String)
deriving DecidableEq, Repr

/-- An HTTP response as seen by `_check_response`. -/
structure HttpResponse where
  status : Nat
  body : ResponseBody
deriving DecidableEq, Repr

/-- A fatal API failure: the printed error line and the process exit code
passed to `sys.exit`. -/
structure ApiFailure where
  message : String
  exitCode : Nat
deriving DecidableEq, Repr

/-- `HetznerCloudManager._check_response` (lines 128-147): when the status
code is not in `successCodes`, print a message extracted from the JSON
body (falling back to `Unknown error` when `error.message` is absent, and
to the raw status plus body text when the body is not JSON) and
`sys.exit(1)`. Returns `some` failure exactly when the request failed. -/
def checkResponse (successCodes : List Nat) (resp : HttpResponse) : Option ApiFailure :=
  if successCodes.contains resp.status then
    none
  else
    match resp.body with
    | .jsonBody errorMessage =>
        some { message := "Error: " ++ errorMessage.getD "Unknown error", exitCode := 1 }
    | .textBody text =>
        some { message := "Error: HTTP " ++ toString resp.status ++ " - " ++ text
               exitCode := 1 }

/-! ## API client: server creation payload (`HetznerCloudManager.create_server`) -/

/-- The `public_net` object of the creation payload (lines 62-65). -/
structure PublicNetPayload where
  enable_ipv4 : Bool
  enable_ipv6 : Bool
deriving DecidableEq, Repr

/-- The JSON payload sent by `HetznerCloudManager.create_server`;
`ssh_keys = none` means the field is absent from the payload. -/
structure CreatePayload where
  name : String
  server_type : String
  image : String
  location : String
  public_net : PublicNetPayload
  ssh_keys : Option (List Nat)
deriving DecidableEq, Repr

/-- `HetznerCloudManager.create_server` payload construction (lines
57-69): the base fields plus `public_net` with IPv4 and IPv6 enabled, and
`ssh_keys` added only when the argument is truthy (not `None` and a
non-empty list). -/
def manager_create_payload (name server_type image location : String)
    (ssh_keys : Option (List Nat)) : CreatePayload :=
  { name := name
    server_type := server_type
    image := image
    location := location
    public_net := { enable_ipv4 := true, enable_ipv6 := true }
    ssh_keys :=
      match ssh_keys with
      | some l => if l.isEmpty then none else some l
      | none => none }

/-- `HetznerCloudManager.delete_server` (lines 80-96): checks the response
against success code `[204]`; on success returns the
`{"status": "deleted", "server_id": id}` record, otherwise the failure. -/
def manager_delete_server (resp : HttpResponse) (server_id : String) :
    Except ApiFailure String :=
  match checkResponse [204] resp with
  | some failure => .error failure
  | none => .ok server_id

/-! ## Dispatcher: SSH-key resolution inside `create_server` (lines 159-178) -/

/-- The inner loop of SSH-key resolution: a requested reference matches a
key when it equals the key name or the stringified key ID
(`key_name == key['name'] or key_name == str(key['id'])`). -/
def matchesKey (ref : String) (k : SshKey) : Bool :=
  ref == k.name || ref == toString k.id

/-- The warning printed for an unmatched SSH-key reference (line 178). -/
def sshKeyWarning (ref : String) : String :=
  "Warning: SSH key \x27" ++ ref ++ "\x27 not found. Skipping."

/-- The `for key_name in args.ssh_keys` loop (lines 167-178): for each
reference take the first key matching by name or stringified ID and
collect its ID; an unmatched reference yields a warning line and is
skipped. Returns the collected IDs and the warning lines, each in loop
order. -/
def resolveSshKeys (keys : List SshKey) : List String → List Nat × List String
  | [] => ([], [])
  | ref :: rest =>
    let tail := resolveSshKeys keys rest
    match keys.find? (matchesKey ref) with
    | some k => (k.id :: tail.1, tail.2)
    | none => (tail.1, sshKeyWarning ref :: tail.2)

/-- The observable effects of the dispatcher function `create_server`
(lines 150-193) up to the API call. -/
structure CreateFlowResult where
  calledListKeys : Bool
  resolvedIds : List Nat
  warnings : List String
  payload : CreatePayload
deriving DecidableEq, Repr

/-- Dispatcher `create_server` (lines 150-193): when `args.ssh_keys` is
truthy (a non-empty list) call `get_ssh_keys` and resolve each reference,
then call the manager with `ssh_keys = ssh_key_ids if ssh_key_ids else
None`. -/
def create_server_flow (keys : List SshKey) (name server_type image location : String)
    (refs : List String) : CreateFlowResult :=
  if refs.isEmpty then
    { calledListKeys := false
      resolvedIds := []
      warnings := []
      payload := manager_create_payload name server_type image location none }
  else
    let resolved := resolveSshKeys keys refs
    { calledListKeys := true
      resolvedIds := resolved.1
      warnings := resolved.2
      payload := manager_create_payload name server_type image location
        (if resolved.1.isEmpty then none else some resolved.1) }

/-! ## Dispatcher: `delete_server` (lines 210-243) -/

/-- Name-to-ID resolution in `delete_server` (lines 218-232): a purely
numeric identifier is used unchanged without calling `list_servers`;
otherwise the server list is scanned for the first exact name match and
its ID is used, and a missing match is `sys.exit(1)`. The boolean records
whether `list_servers` was called. -/
def delete_resolve (servers : List Server) (ident : String) :
    Bool × Except Nat String :=
  if strIsDigit ident then
    (false, .ok ident)
  else
    match servers.find? (fun s => s.name == ident) with
    | some s => (true, .ok (toString s.id))
    | none => (true, .error 1)

/-- The confirmation test in `delete_server` (line 237):
`confirmation.lower() in ['y', 'yes']`. -/
def confirmAccepts (confirmation : String) : Bool :=
  [("y" : String), "yes"].contains (strLower confirmation)

/-- Outcome of the confirmation step of `delete_server` (lines 235-243):
either the deletion is cancelled with `sys.exit(0)` and no API deletion
call, or the flow proceeds to call `delete_server` on the manager. -/
inductive DeleteDecision where
  | cancelled (exitCode : Nat)
  | proceed (server_id : String)
deriving DecidableEq, Repr

/-- The confirmation step of `delete_server` (lines 235-239): with the
force flag the deletion proceeds unconditionally; otherwise it proceeds
exactly when the interactive input is accepted, and a declined
confirmation prints `Deletion cancelled.` and exits with status 0. -/
def delete_confirm_step (force : Bool) (confirmation : String)
    (server_id : String) : DeleteDecision :=
  if force then
    .proceed server_id
  else if confirmAccepts confirmation then
    .proceed server_id
  else
    .cancelled 0

/-- The final step of `delete_server` (lines 241-243): call the manager
and on success print the deletion message. -/
def delete_report (resp : HttpResponse) (server_id : String) :
    Except ApiFailure String :=
  match manager_delete_server resp server_id with
  | .ok sid => .ok ("Server " ++ sid ++ " has been deleted.")
  | .error failure => .error failure

/-! ## Dispatcher: `list_servers` (lines 246-273) -/

/-- Left-aligned fixed-width formatting, Python `f"{value:<w}"`: pad with
spaces on the right up to width `w`, never truncating. -/
def padLeftAlign (s : String) (w : Nat) : String :=
  s ++ String.mk (List.replicate (w - s.length) ' ')

/-- A table cell: the field value, or `N/A` when the field is missing. -/
def cellOf (o : Option String) : String :=
  o.getD "N/A"

/-- One table row of `list_servers` (lines 265-273). -/
def renderServerRow (s : ServerRow) : String :=
  padLeftAlign (cellOf (s.id.map toString)) 10 ++ " " ++
  padLeftAlign (cellOf s.name) 20 ++ " " ++
  padLeftAlign (cellOf s.status) 15 ++ " " ++
  padLeftAlign (cellOf s.serverTypeName) 10 ++ " " ++
  padLeftAlign (cellOf s.ipv4) 15 ++ " " ++
  padLeftAlign (cellOf s.locationName) 10

/-- The header row of the table (line 262). -/
def listHeaderLine : String :=
  padLeftAlign "ID" 10 ++ " " ++ padLeftAlign "NAME" 20 ++ " " ++
  padLeftAlign "STATUS" 15 ++ " " ++ padLeftAlign "TYPE" 10 ++ " " ++
  padLeftAlign "IPv4" 15 ++ " " ++ padLeftAlign "LOCATION" 10

/-- The separator row of the table (line 263): `"-" * 80`. -/
def listDashLine : String :=
  String.mk (List.replicate 80 '-')

/-- Dispatcher `list_servers` (lines 246-273) as the list of printed
lines: `No servers found.` for an empty list, otherwise a blank line, the
count line, a blank line, the header, the separator, and one row per
server in provider order. -/
def list_servers_output (servers : List ServerRow) : List String :=
  if servers.isEmpty then
    ["No servers found."]
  else
    "" :: ("Found " ++ toString servers.length ++ " servers:") :: "" ::
      listHeaderLine :: listDashLine :: servers.map renderServerRow

/-! ## `main`: token resolution (lines 320-329) -/

/-- `args.token or os.environ.get("HETZNER_API_TOKEN")` (line 323):
Python `or` yields the left operand when truthy, else the right one. -/
def resolveApiToken (flag envVar : Option String) : Option String :=
  if pyTruthyStr flag then flag else envVar

/-- The token step of `main` (lines 323-325): resolve the token; when the
result is falsy, `parser.error(...)` prints a usage error and terminates
the process with exit status 2 before any API client is constructed. -/
def main_token_step (flag envVar : Option String) : Except Nat String :=
  match resolveApiToken flag envVar with
  | some t => if t.isEmpty then .error 2 else .ok t
  | none => .error 2

/-- The effective SSH-key reference list of the `create` subcommand
(lines 302-303): `-k` takes one or more values and defaults to
`[DEFAULT_SSH_KEY]` when absent. -/
def effectiveSshKeyRefs (given : Option (List String)) : List String :=
  given.getD [DEFAULT_SSH_KEY]


/-! ## Helper lemmas -/

theorem resolveSshKeys_fst (keys : List SshKey) (refs : List String) :
    (resolveSshKeys keys refs).1
      = refs.filterMap (fun r => (keys.find? (matchesKey r)).map SshKey.id) := by
  induction refs with
  | nil => rfl
  | cons r rest ih =>
    simp only [resolveSshKeys, List.filterMap_cons]
    cases h : keys.find? (matchesKey r) with
    | none => simpa [h] using ih
    | some k => simpa [h] using ih

theorem resolveSshKeys_snd (keys : List SshKey) (refs : List String) :
    (resolveSshKeys keys refs).2
      = (refs.filter (fun r => (keys.find? (matchesKey r)).isNone)).map sshKeyWarning := by
  induction refs with
  | nil => rfl
  | cons r rest ih =>
    simp only [resolveSshKeys, List.filter_cons]
    cases h : keys.find? (matchesKey r) with
    | none => simpa [h] using ih
    | some k => simpa [h] using ih

theorem string_isEmpty_false (t : String) (h : t ≠ "") : t.isEmpty = false := by
  cases he : t.isEmpty with
  | false => rfl
  | true => exact absurd (String.isEmpty_iff t |>.mp he) h


/-! ## Claim theorems -/

/-- Claim C1: for every ServerSpec input, the creation flow issues a payload
containing exactly the supplied name, server type, image and location plus
public IPv4 and IPv6 enabled, and the `ssh_keys` field is present in the
payload if and only if the resolved SSH-key ID list is non-empty (in which
case it is exactly that list). -/
theorem claim_C1_create_payload (keys : List SshKey)
    (name server_type image location : String) (refs : List String) :
    (create_server_flow keys name server_type image location refs).payload.name = name ∧
    (create_server_flow keys name server_type image location refs).payload.server_type
      = server_type ∧
    (create_server_flow keys name server_type image location refs).payload.image = image ∧
    (create_server_flow keys name server_type image location refs).payload.location
      = location ∧
    (create_server_flow keys name server_type image location refs).payload.public_net
      = { enable_ipv4 := true, enable_ipv6 := true } ∧
    ((create_server_flow keys name server_type image location refs).payload.ssh_keys.isSome
      ↔ (create_server_flow keys name server_type image location refs).resolvedIds ≠ []) ∧
    ((create_server_flow keys name server_type image location refs).resolvedIds ≠ [] →
      (create_server_flow keys name server_type image location refs).payload.ssh_keys
        = some (create_server_flow keys name server_type image location refs).resolvedIds) := by
  unfold create_server_flow manager_create_payload
  by_cases h : refs.isEmpty
  · simp [h]
  · simp only [h, Bool.false_eq_true, if_false]
    cases hids : (resolveSshKeys keys refs).1 with
    | nil => simp [hids]
    | cons a t => simp [hids]

/-- Witness for C1: with one matching key the payload carries the resolved
ID list. -/
theorem claim_C1_witness :
    (create_server_flow [⟨1, "a"⟩] "isaac" "cax41" "ubuntu-24.04" "nbg1"
        ["a"]).payload.ssh_keys
      = some ((create_server_flow [⟨1, "a"⟩] "isaac" "cax41" "ubuntu-24.04" "nbg1"
        ["a"]).resolvedIds) :=
  (claim_C1_create_payload [⟨1, "a"⟩] "isaac" "cax41" "ubuntu-24.04" "nbg1"
    ["a"]).2.2.2.2.2.2 (by decide)

/-- Claim C2: in the delete subcommand a purely numeric identifier
short-circuits the lookup (no `list_servers` call) and is used unchanged; a
non-numeric identifier is resolved by exact name match over the server list
(identifier `isaac` against `{id := 123, name := "isaac"}` yields `123`);
when no server name matches, the command reports an error and exits with
status 1. -/
theorem claim_C2_delete_resolution (servers : List Server) (ident : String) :
    (strIsDigit ident = true → delete_resolve servers ident = (false, .ok ident)) ∧
    delete_resolve [⟨123, "isaac"⟩] "isaac" = (true, .ok "123") ∧
    (strIsDigit ident = false → (∀ s ∈ servers, s.name ≠ ident) →
      delete_resolve servers ident = (true, .error 1)) := by
  refine ⟨fun h => ?_, rfl, fun h hnone => ?_⟩
  · simp [delete_resolve, h]
  · have hfind : servers.find? (fun s => s.name == ident) = none := by
      simp only [List.find?_eq_none]
      intro s hs
      simpa using hnone s hs
    simp [delete_resolve, h, hfind]

/-- Witness for C2: a numeric identifier passes through untouched, and an
unmatched name exits with status 1. -/
theorem claim_C2_witness :
    delete_resolve [] "456" = (false, .ok "456") ∧
    delete_resolve [⟨123, "isaac"⟩] "nope" = (true, .error 1) :=
  ⟨(claim_C2_delete_resolution [] "456").1 (by decide),
   (claim_C2_delete_resolution [⟨123, "isaac"⟩] "nope").2.2 (by decide)
     (by decide)⟩

/-- Claim C3: with a non-empty reference list the create flow calls
`get_ssh_keys`, matches each reference case-sensitively and exactly against
a key name or stringified key ID with the first match winning, and an
unmatched reference yields a warning and is skipped without aborting
creation; for keys with IDs 1 and 2 named `a` and `b` and refs `a`, `3`,
the resolved ID list is `[1]` with a warning for `3`. -/
theorem claim_C3_ssh_resolution (keys : List SshKey)
    (name server_type image location : String) (refs : List String)
    (h : refs ≠ []) :
    (create_server_flow keys name server_type image location refs).calledListKeys = true ∧
    (create_server_flow keys name server_type image location refs).resolvedIds
      = refs.filterMap (fun r => (keys.find? (matchesKey r)).map SshKey.id) ∧
    (create_server_flow keys name server_type image location refs).warnings
      = (refs.filter (fun r => (keys.find? (matchesKey r)).isNone)).map sshKeyWarning ∧
    resolveSshKeys [⟨1, "a"⟩, ⟨2, "b"⟩] ["a", "3"] = ([1], [sshKeyWarning "3"]) := by
  have hne : refs.isEmpty = false := by
    cases refs with
    | nil => exact absurd rfl h
    | cons a t => rfl
  refine ⟨?_, ?_, ?_, by decide⟩ <;>
    simp [create_server_flow, hne, resolveSshKeys_fst, resolveSshKeys_snd]

/-- Witness for C3 at the concrete example of the claim. -/
theorem claim_C3_witness :
    (create_server_flow [⟨1, "a"⟩, ⟨2, "b"⟩] "isaac" "cax41" "ubuntu-24.04"
        "nbg1" ["a", "3"]).resolvedIds = [1] ∧
    (create_server_flow [⟨1, "a"⟩, ⟨2, "b"⟩] "isaac" "cax41" "ubuntu-24.04"
        "nbg1" ["a", "3"]).warnings = [sshKeyWarning "3"] := by
  have h := claim_C3_ssh_resolution [⟨1, "a"⟩, ⟨2, "b"⟩] "isaac" "cax41"
    "ubuntu-24.04" "nbg1" ["a", "3"] (by decide)
  exact ⟨by rw [h.2.1]; decide, by rw [h.2.2.1]; decide⟩

/-- Claim C4: deletion succeeds if and only if the HTTP response status is
204; any other status (such as 404) is an API failure with exit code 1, and
the `has been deleted` success message is not produced. -/
theorem claim_C4_delete_status (status : Nat) (body : ResponseBody)
    (server_id : String) :
    ((∃ msg, delete_report ⟨status, body⟩ server_id = .ok msg) ↔ status = 204) ∧
    (status = 204 → delete_report ⟨status, body⟩ server_id
      = .ok ("Server " ++ server_id ++ " has been deleted.")) ∧
    (status ≠ 204 → ∃ failure, delete_report ⟨status, body⟩ server_id = .error failure ∧
      failure.exitCode = 1) := by
  by_cases h : status = 204
  · subst h
    exact ⟨⟨fun _ => rfl, fun _ => ⟨_, rfl⟩⟩, fun _ => rfl, fun hne => absurd rfl hne⟩
  · have hc : ([204] : List Nat).contains status = false := by
      simp [h]
    refine ⟨⟨fun hex => ?_, fun he => absurd he h⟩, fun he => absurd he h, fun _ => ?_⟩
    · obtain ⟨msg, hmsg⟩ := hex
      cases body <;>
        simp [delete_report, manager_delete_server, checkResponse, hc, h] at hmsg
    · cases body with
      | jsonBody m =>
          exact ⟨⟨"Error: " ++ m.getD "Unknown error", 1⟩,
            by simp [delete_report, manager_delete_server, checkResponse, hc, h], rfl⟩
      | textBody t =>
          exact ⟨⟨"Error: HTTP " ++ toString status ++ " - " ++ t, 1⟩,
            by simp [delete_report, manager_delete_server, checkResponse, hc, h], rfl⟩

/-- Witness for C4: a 404 response yields an API failure with exit code 1
and no success message. -/
theorem claim_C4_witness :
    ∃ failure, delete_report ⟨404, .jsonBody (some "server not found")⟩ "123"
      = .error failure ∧ failure.exitCode = 1 :=
  (claim_C4_delete_status 404 (.jsonBody (some "server not found")) "123").2.2
    (by decide)

/-- Claim C5: without the force flag the delete subcommand proceeds exactly
when the lowercased confirmation input is `y` or `yes`; for any other input
no deletion call is made and the process exits with status 0. -/
theorem claim_C5_confirmation (confirmation server_id : String) :
    (delete_confirm_step false confirmation server_id = .proceed server_id ↔
      (strLower confirmation = "y" ∨ strLower confirmation = "yes")) ∧
    (strLower confirmation ≠ "y" → strLower confirmation ≠ "yes" →
      delete_confirm_step false confirmation server_id = .cancelled 0) := by
  have hacc : confirmAccepts confirmation = true ↔
      (strLower confirmation = "y" ∨ strLower confirmation = "yes") := by
    simp [confirmAccepts]
  constructor
  · constructor
    · intro hp
      by_cases hc : confirmAccepts confirmation = true
      · exact hacc.mp hc
      · simp [delete_confirm_step, hc] at hp
    · intro hor
      simp [delete_confirm_step, hacc.mpr hor]
  · intro h1 h2
    have hc : confirmAccepts confirmation = false := by
      cases hcc : confirmAccepts confirmation
      · rfl
      · rcases hacc.mp hcc with h | h
        exacts [absurd h h1, absurd h h2]
    simp [delete_confirm_step, hc]

/-- Witness for C5: the decline input `n` cancels with exit status 0. -/
theorem claim_C5_witness :
    delete_confirm_step false "n" "123" = .cancelled 0 :=
  (claim_C5_confirmation "n" "123").2 (by decide) (by decide)

/-- Claim C6: the list subcommand prints exactly `No servers found.` for an
empty server list, and otherwise a fixed-width table with columns ID, NAME,
STATUS, TYPE, IPv4 and LOCATION, one row per server in provider order, with
`N/A` substituted for every missing field. -/
theorem claim_C6_list_rendering (servers : List ServerRow) :
    (servers = [] → list_servers_output servers = ["No servers found."]) ∧
    (servers ≠ [] → list_servers_output servers =
      "" :: ("Found " ++ toString servers.length ++ " servers:") :: "" ::
        listHeaderLine :: listDashLine :: servers.map renderServerRow) ∧
    listHeaderLine =
      "ID         NAME                 STATUS          TYPE       IPv4            LOCATION  " ∧
    renderServerRow ⟨none, none, none, none, none, none⟩ =
      "N/A        N/A                  N/A             N/A        N/A             N/A       " ∧
    (∀ o : Option String, o = none → cellOf o = "N/A") := by
  refine ⟨fun h => by simp [list_servers_output, h], fun h => ?_, by decide, by decide,
    fun o ho => by simp [cellOf, ho]⟩
  have hne : servers.isEmpty = false := by
    cases servers with
    | nil => exact absurd rfl h
    | cons a t => rfl
  simp [list_servers_output, hne]

/-- Witness for C6: the empty list and a one-server list render as stated. -/
theorem claim_C6_witness :
    list_servers_output [] = ["No servers found."] ∧
    list_servers_output [⟨some 7, some "isaac", some "running", some "cax41",
        some "1.2.3.4", some "nbg1"⟩] =
      ["", "Found 1 servers:", "", listHeaderLine, listDashLine,
        renderServerRow ⟨some 7, some "isaac", some "running", some "cax41",
          some "1.2.3.4", some "nbg1"⟩] :=
  ⟨(claim_C6_list_rendering []).1 rfl,
   ((claim_C6_list_rendering [⟨some 7, some "isaac", some "running", some "cax41",
      some "1.2.3.4", some "nbg1"⟩]).2.1 (by decide)).trans (by decide)⟩

/-- Claim C7 counterexample: with no flag and no environment variable the
token step of `main` terminates with exit status 2 (argparse
`parser.error`), not 1; moreover an empty-string flag value does not take
precedence over the environment variable. -/
theorem claim_C7_counterexample :
    main_token_step none none = .error 2 ∧ (2 : Nat) ≠ 1 ∧
    main_token_step (some "") (some "envtok") = .ok "envtok" :=
  ⟨rfl, by decide, rfl⟩

/-- Claim C7 (amended): a non-empty command-line token flag takes precedence
over the environment variable, an empty flag value falls through to the
environment variable, and when neither source yields a non-empty token a
fatal usage error terminates the process before any API call, with exit
status 2. -/
theorem claim_C7_token_resolution (flag envVar : Option String) :
    (∀ t, flag = some t → t ≠ "" → main_token_step flag envVar = .ok t) ∧
    (∀ t, pyTruthyStr flag = false → envVar = some t → t ≠ "" →
      main_token_step flag envVar = .ok t) ∧
    (pyTruthyStr flag = false → pyTruthyStr envVar = false →
      main_token_step flag envVar = .error 2) := by
  refine ⟨fun t hf ht => ?_, fun t hfl he ht => ?_, fun hfl hev => ?_⟩
  · subst hf
    have hemp := string_isEmpty_false t ht
    simp [main_token_step, resolveApiToken, pyTruthyStr, hemp]
  · subst he
    have hemp := string_isEmpty_false t ht
    simp [main_token_step, resolveApiToken, hfl, hemp]
  · cases hev' : envVar with
    | none => simp [main_token_step, resolveApiToken, hfl]
    | some e =>
        have hee : e.isEmpty = true := by
          rw [hev'] at hev
          simpa [pyTruthyStr] using hev
        simp [main_token_step, resolveApiToken, hfl, hee]

/-- Witness for the amended C7 at concrete inputs. -/
theorem claim_C7_witness :
    main_token_step (some "cli-token") (some "env-token") = .ok "cli-token" ∧
    main_token_step none (some "env-token") = .ok "env-token" ∧
    main_token_step none none = .error 2 :=
  ⟨(claim_C7_token_resolution (some "cli-token") (some "env-token")).1
      "cli-token" rfl (by decide),
   (claim_C7_token_resolution none (some "env-token")).2.1
      "env-token" rfl rfl (by decide),
   (claim_C7_token_resolution none none).2.2 rfl rfl⟩

/-- Claim C8: on any non-success status the client reports the structured
JSON error message when the body parses (with a default when the
`error.message` field is absent), otherwise the raw status code and body
text, and exits with status 1 (non-zero); a success status produces no
failure, and the response is checked exactly once with no retry. -/
theorem claim_C8_error_handling (successCodes : List Nat) (resp : HttpResponse) :
    (successCodes.contains resp.status = false →
      checkResponse successCodes resp = some
        { message :=
            match resp.body with
            | .jsonBody errorMessage => "Error: " ++ errorMessage.getD "Unknown error"
            | .textBody text => "Error: HTTP " ++ toString resp.status ++ " - " ++ text
          exitCode := 1 } ∧
      (1 : Nat) ≠ 0) ∧
    (successCodes.contains resp.status = true →
      checkResponse successCodes resp = none) := by
  obtain ⟨status, body⟩ := resp
  constructor
  · intro h
    refine ⟨?_, by decide⟩
    have h' : status ∉ successCodes := by simpa using h
    cases body <;> simp [checkResponse, h']
  · intro h
    have h' : status ∈ successCodes := by simpa using h
    simp [checkResponse, h']

/-- Witness for C8: a 404 with an unparseable body falls back to the raw
status line and exits 1. -/
theorem claim_C8_witness :
    checkResponse [200, 201] ⟨404, .textBody "gateway timeout"⟩
      = some { message := "Error: HTTP 404 - gateway timeout", exitCode := 1 } ∧
    (1 : Nat) ≠ 0 := by
  have h := (claim_C8_error_handling [200, 201]
    ⟨404, .textBody "gateway timeout"⟩).1 (by decide)
  exact ⟨h.1.trans (by decide), h.2⟩

/-- Claim C9: through the documented CLI the SSH-key reference list of the
create subcommand is always non-empty (an absent `-k` defaults to one fixed
identity and a given `-k` carries at least one value), so the branch that
skips SSH-key resolution is unreachable and `get_ssh_keys` is always
called. -/
theorem claim_C9_ssh_branch (given : Option (List String))
    (keys : List SshKey) (name server_type image location : String)
    (hgiven : ∀ l, given = some l → l ≠ []) :
    effectiveSshKeyRefs given ≠ [] ∧
    (create_server_flow keys name server_type image location
      (effectiveSshKeyRefs given)).calledListKeys = true := by
  have hne : effectiveSshKeyRefs given ≠ [] := by
    cases given with
    | none => simp [effectiveSshKeyRefs]
    | some l => simpa [effectiveSshKeyRefs] using hgiven l rfl
  refine ⟨hne, ?_⟩
  have hne' : (effectiveSshKeyRefs given).isEmpty = false := by
    cases he : effectiveSshKeyRefs given with
    | nil => exact absurd he hne
    | cons a t => rfl
  simp [create_server_flow, hne']

/-- Witness for C9: with `-k` absent the default reference list forces the
SSH-key lookup. -/
theorem claim_C9_witness :
    (create_server_flow [] "isaac" "cax41" "ubuntu-24.04" "nbg1"
      (effectiveSshKeyRefs none)).calledListKeys = true :=
  (claim_C9_ssh_branch none [] "isaac" "cax41" "ubuntu-24.04" "nbg1"
    (fun _ hl => Option.noConfusion hl)).2

/-- Claim C10: SSH-key resolution preserves the order of the requested
references in the resolved ID list and performs no deduplication: the
resolved list is exactly the reference list mapped through first-match
lookup, and two distinct references resolving to the same key (its name and
its stringified ID) put that ID twice in the resolved list and twice in the
creation payload. -/
theorem claim_C10_order_no_dedup :
    (∀ (keys : List SshKey) (refs : List String),
      (resolveSshKeys keys refs).1
        = refs.filterMap (fun r => (keys.find? (matchesKey r)).map SshKey.id)) ∧
    (resolveSshKeys [⟨1, "a"⟩] ["a", "1"]).1 = [1, 1] ∧
    (create_server_flow [⟨1, "a"⟩] "isaac" "cax41" "ubuntu-24.04" "nbg1"
      ["a", "1"]).payload.ssh_keys = some [1, 1] :=
  ⟨resolveSshKeys_fst, by decide, by decide⟩

end Hetzner
